import Mathlib

/-
Verification of the CosmosCanvas core algorithms.

Shallow embedding of the repository's three source modules:
  * galfits.py   — image cutout / coordinate-trim engine (ImageTrim, get_galaxy_range)
  * specindex.py — spectral-index colormap builders (__stretch__, create_cmap_specindex,
                   create_cmap_specindex_error)
  * velmap.py    — velocity colormap builders (create_cmap_velocity,
                   create_cmap_chromaVelocity)

Numeric Python values are modelled as exact rationals (ℚ).  Python's `int()` and
`np.int()` truncate toward zero; that operation is modelled by `pytrunc`.
Python `None`-defaulted optional parameters are modelled as `Option ℚ`.
Functions that print an error and return `None` are modelled as `Option`-valued
functions returning `none`; `sys.exit(-1)` is modelled by a dedicated result
constructor carrying the exit code.
-/

/-- Python `int(x)` / `np.int(x)` on a float: truncation toward zero. -/
def pytrunc (x : ℚ) : ℤ := if 0 ≤ x then ⌊x⌋ else ⌈x⌉

lemma pytrunc_of_nonneg {x : ℚ} (h : 0 ≤ x) : pytrunc x = ⌊x⌋ := if_pos h

lemma pytrunc_intCast (n : ℤ) : pytrunc (n : ℚ) = n := by
  unfold pytrunc
  split_ifs <;> simp

lemma pytrunc_nonneg_iff {x : ℚ} : 0 ≤ pytrunc x ↔ -1 < x := by
  unfold pytrunc
  split_ifs with h
  · constructor
    · intro _
      linarith
    · intro _
      exact Int.floor_nonneg.2 h
  · rw [show (0 : ℤ) ≤ ⌈x⌉ ↔ ((0 : ℤ) : ℚ) - 1 < x from Int.le_ceil_iff]
    norm_num

lemma pytrunc_le_of_le {x b : ℚ} (hx : x ≤ b) (hb : 0 ≤ b) : (pytrunc x : ℚ) ≤ b := by
  unfold pytrunc
  split_ifs with h
  · exact (Int.floor_le x).trans hx
  · have h1 : ⌈x⌉ ≤ (0 : ℤ) := Int.ceil_le.2 (by push_cast; linarith [not_le.1 h])
    have h2 : ((⌈x⌉ : ℤ) : ℚ) ≤ 0 := by exact_mod_cast h1
    linarith

lemma le_of_le_pytrunc {y : ℚ} {n : ℤ} (hn : 1 ≤ n) (h : n ≤ pytrunc y) : (n : ℚ) ≤ y := by
  unfold pytrunc at h
  split_ifs at h with hy
  · exact Int.le_floor.1 h
  · exfalso
    have h1 : ⌈y⌉ ≤ (0 : ℤ) := Int.ceil_le.2 (by push_cast; linarith [not_le.1 hy])
    omega

/-
CutoutGeometry: the rectangle branch of ImageTrim (galfits.py lines 172-191).
The source clamps the two spatial axes with identical code; the outer guard
`if (int(pix[0]-size[0])<0 or int(pix[0]+size[0])>=npix[0]) or (...axis 1...)`
is exactly the disjunction of the per-axis inner conditions (with the original
sizes), and each inner assignment fires precisely when its own condition holds,
so the final size of each axis depends on that axis alone.  `clampAxis` below is
that per-axis computation: first `if int(pix-size)<0: size = pix`, then, with the
possibly updated size, `if int(pix+size)>=npix: size = npix-pix-1`, and finally
the slice indices `int(pix-size) : int(pix+size)`.  `wasClamped` records whether
the warning branch was entered on account of this axis (the original-size
conditions).
-/

/-- First reduction of the half-extent: `if int(pix[i]-size[i])<0: size[i] = pix[i]`
(galfits.py lines 182 and 184). -/
def clampHalf1 (pix half : ℚ) : ℚ :=
  if pytrunc (pix - half) < 0 then pix else half

/-- Second reduction of the half-extent:
`if int(pix[i]+size[i])>=npix[i]: size[i] = npix[i]-pix[i]-1`
(galfits.py lines 183 and 185), applied after `clampHalf1`. -/
def clampHalf2 (pix half : ℚ) (npix : ℕ) : ℚ :=
  if (npix : ℤ) ≤ pytrunc (pix + clampHalf1 pix half) then (npix : ℚ) - pix - 1
  else clampHalf1 pix half

structure ClampResult where
  low : ℤ
  high : ℤ
  wasClamped : Bool
deriving Repr, DecidableEq

/-- Per-axis bounds produced by the rectangle branch of ImageTrim
(galfits.py lines 180-191): the slice indices `int(pix-size) : int(pix+size)`
after the two possible half-extent reductions, together with whether the
"Requested rectangle is beyond the image size" warning was triggered by this
axis. -/
def clampAxis (pix half : ℚ) (npix : ℕ) : ClampResult :=
  { low := pytrunc (pix - clampHalf2 pix half npix)
    high := pytrunc (pix + clampHalf2 pix half npix)
    wasClamped := decide (pytrunc (pix - half) < 0 ∨ (npix : ℤ) ≤ pytrunc (pix + half)) }

/-
ImageTrim, no_trim branch (galfits.py lines 157-170).
The data cube shape may have 2, 3 or 4 axes; leading axes are sliced at index 0,
so the spatial slice h_cut has shape (shape[-2], shape[-1]).
npix = [shape[-1], shape[-2]], and the WCS object is sliced as
`w_cut = w[0:npix[0]-1, 0:npix[1]-1]`.
(The subtraction below is ℕ-truncated; it agrees with the Python `npix[i]-1` for
any non-degenerate image, i.e. whenever both spatial extents are ≥ 1.)
-/

structure NoTrimOut where
  hshape : ℕ × ℕ
  wslice : (ℕ × ℕ) × (ℕ × ℕ)
deriving Repr, DecidableEq

/-- ImageTrim with TrimSwitch = "no_trim": returns the spatial shape
(rows, cols) = (shape[-2], shape[-1]) of the pixel slice `h_cut`, and the pair of
index ranges `((0, npix[0]-1), (0, npix[1]-1))` applied to the coordinate-system
object `w`, in slot order as written in the source.  `none` for an unsupported
number of axes (the source would leave `h_cut` unassigned). -/
def ImageTrim_no_trim (shape : List ℕ) : Option NoTrimOut :=
  let naxis := shape.length
  if naxis = 2 ∨ naxis = 3 ∨ naxis = 4 then
    let ny := shape.getD (naxis - 2) 0
    let nx := shape.getD (naxis - 1) 0
    some { hshape := (ny, nx), wslice := ((0, nx - 1), (0, ny - 1)) }
  else none

/-
get_galaxy_range (galfits.py lines 116-136).
rsize = np.int(RADIUS/pix_size) + 1, and the data cube is sliced as
data[..., int(pix[1]-rsize):int(pix[1]+rsize), int(pix[0]-rsize):int(pix[0]+rsize)]
with NO clamping of the bounds to the array extent.
-/

/-- `rsize = np.int(RADIUS/pix_size) + 1` (galfits.py line 129). -/
def rsize (RADIUS pix_size : ℚ) : ℤ := pytrunc (RADIUS / pix_size) + 1

/-- The slice index bounds computed by get_galaxy_range
(galfits.py lines 132-134), as ((ylow, yhigh), (xlow, xhigh)).  The source
applies these directly to the numpy array without clamping, so a negative low
bound reaches numpy's negative-index (wrap-around) slicing semantics. -/
def get_galaxy_range_bounds (pixx pixy : ℚ) (r : ℤ) : (ℤ × ℤ) × (ℤ × ℤ) :=
  ((pytrunc (pixy - (r : ℚ)), pytrunc (pixy + (r : ℚ))),
   (pytrunc (pixx - (r : ℚ)), pytrunc (pixx + (r : ℚ))))

/-- The dispatch on the number of cube axes in get_galaxy_range
(galfits.py lines 131-134).  In the `naxis==3` branch the source references the
undefined name `size` instead of `rsize`, so that branch raises `NameError` at
runtime; it is modelled as `none`.  Shapes other than 2/3/4 leave `h_cut`
unassigned (also a runtime `NameError`), likewise `none`. -/
def get_galaxy_range_slice (naxis : ℕ) (pixx pixy : ℚ) (r : ℤ) :
    Option ((ℤ × ℤ) × (ℤ × ℤ)) :=
  if naxis = 2 then some (get_galaxy_range_bounds pixx pixy r)
  else if naxis = 3 then none
  else if naxis = 4 then some (get_galaxy_range_bounds pixx pixy r)
  else none

/-
specindex.py
-/

/-- Default position of the "steep" anchor (specindex.py line 39). -/
def s0 : ℚ := 0.3125

/-- Default position of the "flat" anchor (specindex.py line 40). -/
def f0 : ℚ := 0.75

/-- `dsf = f0 - s0` (specindex.py line 41). -/
def dsf : ℚ := f0 - s0

/-- `__stretch__(p, s1, f1)` (specindex.py lines 34-48): piecewise-linear remap
of a position under the default anchors (s0, f0) to its position under the
anchors (s1, f1). -/
def stretch (p s1 f1 : ℚ) : ℚ :=
  if p ≤ s0 then p * s1 / s0
  else if p ≤ f0 then ((p - s0) * f1 + (f0 - p) * s1) / dsf
  else ((p - f0) + (1 - p) * f1) / (1 - f0)

/-- create_cmap_specindex (specindex.py lines 51-116), reduced to its range
check and the control-point position row LCH_x_vals.  The source prints
"Error: Currently must have min_p < steep_p < flat_p < max_p" and returns
`None` exactly when the guard on line 81 fires; otherwise it builds
`LCH_x_vals = [0, s1, m1, __stretch__(0.6,s1,f1), f1, __stretch__(0.9,s1,f1), 1]`
and hands it to the assembler. -/
def create_cmap_specindex (min_p max_p steep_p flat_p : ℚ) : Option (List ℚ) :=
  if steep_p < min_p ∨ flat_p < min_p ∨ steep_p > max_p ∨ flat_p > max_p then none
  else
    let color_width := max_p - min_p
    let s1 := (steep_p - min_p) / color_width
    let f1 := (flat_p - min_p) / color_width
    let m1 := (s1 + f1) / 2
    some [0, s1, m1, stretch 0.6 s1 f1, f1, stretch 0.9 s1 f1, 1]

/-- The hue-parameter resolution of create_cmap_specindex_error
(specindex.py lines 173-186), as a function of the optional H_min, H_mid, H_max
and the fallback H_0.  Mirrors the source branch by branch:
if both bounds are missing they default to H_0 (H_mid, if also missing, then
becomes their average, i.e. H_0); otherwise a missing H_mid together with a
missing bound is a configuration error (`none`); otherwise a missing H_mid
becomes the average of the bounds, and a missing single bound is set to H_mid. -/
def specindex_error_H (H_0 : ℚ) (H_min H_mid H_max : Option ℚ) : Option (ℚ × ℚ × ℚ) :=
  match H_min, H_mid, H_max with
  | none, none, none => some (H_0, (H_0 + H_0) / 2, H_0)
  | none, some m, none => some (H_0, m, H_0)
  | some _, none, none => none
  | none, none, some _ => none
  | some a, none, some b => some (a, (a + b) / 2, b)
  | some a, some m, none => some (a, m, m)
  | none, some m, some b => some (m, m, b)
  | some a, some m, some b => some (a, m, b)

/-- create_cmap_specindex_error (specindex.py lines 153-208), reduced to its
configuration checks and the control-point rows it hands to the assembler:
(positions, L row, C row, H row).  `none` wherever the source prints an error
and returns `None`. -/
def create_cmap_specindex_error (c_mid L_ends L_mid : ℚ) (L_min L_max : Option ℚ)
    (C_max H_0 : ℚ) (H_min H_mid H_max : Option ℚ) :
    Option (List ℚ × List ℚ × List ℚ × List ℚ) :=
  if c_mid < 0 ∨ 1 < c_mid then none
  else
    match L_min, L_max with
    | some _, none => none
    | none, some _ => none
    | none, none =>
      match specindex_error_H H_0 H_min H_mid H_max with
      | none => none
      | some (ha, hm, hb) =>
        some ([0, c_mid, 1], [L_ends, L_mid, L_ends], [0, C_max / 2, C_max], [ha, hm, hb])
    | some a, some b =>
      match specindex_error_H H_0 H_min H_mid H_max with
      | none => none
      | some (ha, hm, hb) =>
        some ([0, c_mid, 1], [a, L_mid, b], [0, C_max / 2, C_max], [ha, hm, hb])

/-
velmap.py
-/

/-- Result of a velmap builder: either the process was terminated through
`exit(code)` (velmap.py line 51 / 160), or the control-point position row
LCH_x['L'] was built and handed to the assembler. -/
inductive VelBuild where
  | exited : ℤ → VelBuild
  | built : List ℚ → VelBuild
deriving Repr, DecidableEq

/-- create_cmap_velocity (velmap.py lines 29-101), reduced to its division-point
guard and the control-point position row
`LCH_x['L'] = [0, Lpoint_1, d0-width/2, d0, d0+width/2, 1-Lpoint_1, 1]`
(shared by the L, C and H rows).  The `mode` argument is fixed at its default
valid string, so the mode-type exit path on line 84 is not reachable and is not
modelled. -/
def create_cmap_velocity (min_p max_p div width Lpoint_1 : ℚ) : VelBuild :=
  let d0 := (div - min_p) / (max_p - min_p)
  if d0 < 0 ∨ 1 < d0 then .exited (-1)
  else .built [0, Lpoint_1, d0 - width / 2, d0, d0 + width / 2, 1 - Lpoint_1, 1]

/-- create_cmap_chromaVelocity (velmap.py lines 138-217), reduced the same way:
identical division-point guard (line 158-160) and identical position row
(line 206). -/
def create_cmap_chromaVelocity (min_p max_p div width Lpoint_1 : ℚ) : VelBuild :=
  let d0 := (div - min_p) / (max_p - min_p)
  if d0 < 0 ∨ 1 < d0 then .exited (-1)
  else .built [0, Lpoint_1, d0 - width / 2, d0, d0 + width / 2, 1 - Lpoint_1, 1]

/-
Theorems.
-/

/-- C2: with the fixed default anchors s0 = 0.3125 and f0 = 0.75, for every
target anchor pair (s1, f1) with 0 ≤ s1 ≤ f1 ≤ 1, `stretch` maps the four
distinguished inputs exactly to their targets:
stretch 0 = 0, stretch s0 = s1, stretch f0 = f1, stretch 1 = 1. -/
theorem C2_theorem (s1 f1 : ℚ) (h0 : 0 ≤ s1) (h1 : s1 ≤ f1) (h2 : f1 ≤ 1) :
    s0 = 0.3125 ∧ f0 = 0.75 ∧
    stretch 0 s1 f1 = 0 ∧ stretch s0 s1 f1 = s1 ∧
    stretch f0 s1 f1 = f1 ∧ stretch 1 s1 f1 = 1 := by
  have hs0 : s0 = 5/16 := by norm_num [s0]
  have hf0 : f0 = 3/4 := by norm_num [f0]
  refine ⟨by norm_num [s0], by norm_num [f0], ?_, ?_, ?_, ?_⟩
  · rw [stretch, if_pos (by rw [hs0]; norm_num : (0:ℚ) ≤ s0)]
    simp
  · rw [stretch, if_pos (le_refl s0), mul_comm, mul_div_assoc,
      div_self (by rw [hs0]; norm_num : s0 ≠ 0), mul_one]
  · rw [stretch, if_neg (by rw [hs0, hf0]; norm_num : ¬ f0 ≤ s0),
      if_pos (le_refl f0), dsf]
    rw [sub_self, zero_mul, add_zero, mul_comm, mul_div_assoc,
      div_self (by rw [hs0, hf0]; norm_num : f0 - s0 ≠ 0), mul_one]
  · rw [stretch, if_neg (by rw [hs0]; norm_num : ¬ (1:ℚ) ≤ s0),
      if_neg (by rw [hf0]; norm_num : ¬ (1:ℚ) ≤ f0)]
    rw [sub_self, zero_mul, add_zero, div_self (by rw [hf0]; norm_num : (1:ℚ) - f0 ≠ 0)]

/-- Witness for C2 at the concrete target anchors (s1, f1) = (1/4, 1/2). -/
theorem C2_witness :
    (0:ℚ) ≤ 1/4 ∧ (1/4:ℚ) ≤ 1/2 ∧ (1/2:ℚ) ≤ 1 ∧
    (s0 = 0.3125 ∧ f0 = 0.75 ∧
      stretch 0 (1/4) (1/2) = 0 ∧ stretch s0 (1/4) (1/2) = 1/4 ∧
      stretch f0 (1/4) (1/2) = 1/2 ∧ stretch 1 (1/4) (1/2) = 1) :=
  ⟨by norm_num, by norm_num, by norm_num,
   C2_theorem (1/4) (1/2) (by norm_num) (by norm_num) (by norm_num)⟩

/-- C3: for every target anchor pair with 0 ≤ s1 ≤ f1 ≤ 1, `stretch` is
monotonic non-decreasing in p over [0, 1], including across the two breakpoints
p = s0 and p = f0 where the piecewise-linear definition changes branch. -/
theorem C3_theorem (s1 f1 p1 p2 : ℚ) (hs1 : 0 ≤ s1) (hsf : s1 ≤ f1) (hf1 : f1 ≤ 1)
    (hp0 : 0 ≤ p1) (hp : p1 ≤ p2) (hp1 : p2 ≤ 1) :
    stretch p1 s1 f1 ≤ stretch p2 s1 f1 := by
  have e0 : s0 = 5/16 := by norm_num [s0]
  have e1 : f0 = 3/4 := by norm_num [f0]
  have e2 : dsf = 7/16 := by norm_num [dsf, f0, s0]
  simp only [stretch, e0, e1, e2]
  rcases le_or_lt p1 (5/16 : ℚ) with hA | hA
  · rcases le_or_lt p2 (5/16 : ℚ) with hB | hB
    · rw [if_pos hA, if_pos hB]
      refine (div_le_div_iff₀ (by norm_num) (by norm_num)).mpr ?_
      nlinarith [mul_nonneg (sub_nonneg.2 hp) hs1]
    · rw [if_pos hA, if_neg (not_le.2 hB)]
      rcases le_or_lt p2 (3/4 : ℚ) with hC | hC
      · rw [if_pos hC]
        refine (div_le_div_iff₀ (by norm_num) (by norm_num)).mpr ?_
        nlinarith [mul_nonneg (sub_nonneg.2 hA) hs1,
          mul_nonneg (le_of_lt (sub_pos.2 hB)) (sub_nonneg.2 hsf)]
      · rw [if_neg (not_le.2 hC)]
        refine (div_le_div_iff₀ (by norm_num) (by norm_num)).mpr ?_
        nlinarith [mul_nonneg (sub_nonneg.2 hA) hs1,
          mul_nonneg (le_of_lt (sub_pos.2 hC)) (sub_nonneg.2 hf1), hsf.trans hf1]
  · rw [if_neg (not_le.2 hA), if_neg (not_le.2 (hA.trans_le hp))]
    rcases le_or_lt p1 (3/4 : ℚ) with hB | hB
    · rw [if_pos hB]
      rcases le_or_lt p2 (3/4 : ℚ) with hC | hC
      · rw [if_pos hC]
        refine (div_le_div_iff₀ (by norm_num) (by norm_num)).mpr ?_
        nlinarith [mul_nonneg (sub_nonneg.2 hp) (sub_nonneg.2 hsf)]
      · rw [if_neg (not_le.2 hC)]
        refine (div_le_div_iff₀ (by norm_num) (by norm_num)).mpr ?_
        nlinarith [mul_nonneg (sub_nonneg.2 hB) (sub_nonneg.2 hsf),
          mul_nonneg (le_of_lt (sub_pos.2 hC)) (sub_nonneg.2 hf1)]
    · rw [if_neg (not_le.2 hB), if_neg (not_le.2 (hB.trans_le hp))]
      refine (div_le_div_iff₀ (by norm_num) (by norm_num)).mpr ?_
      nlinarith [mul_nonneg (sub_nonneg.2 hp) (sub_nonneg.2 hf1)]

/-- Witness for C3: a concrete pair of positions straddling both breakpoints,
at the concrete target anchors (s1, f1) = (1/4, 1/2). -/
theorem C3_witness :
    (0:ℚ) ≤ 1/4 ∧ (1/4:ℚ) ≤ 1/2 ∧ (1/2:ℚ) ≤ 1 ∧
    (0:ℚ) ≤ 1/4 ∧ (1/4:ℚ) ≤ 9/10 ∧ (9/10:ℚ) ≤ 1 ∧
    stretch (1/4) (1/4) (1/2) ≤ stretch (9/10) (1/4) (1/2) :=
  ⟨by norm_num, by norm_num, by norm_num, by norm_num, by norm_num, by norm_num,
   C3_theorem (1/4) (1/2) (1/4) (9/10) (by norm_num) (by norm_num) (by norm_num)
     (by norm_num) (by norm_num) (by norm_num)⟩

/-- C1 counterexample: for the fractional center pix = 99.5 (strictly inside
[0, 100)) and half-extent 0.5 ≥ 0, the rectangle-mode clamp returns
low = 100 and high = 99, so the claimed invariant
0 ≤ low ≤ center ≤ high < axis_length fails (low > center and low > high). -/
theorem C1_counterexample :
    (0:ℚ) ≤ 199/2 ∧ (199/2:ℚ) < 100 ∧ (0:ℚ) ≤ 1/2 ∧
    clampAxis (199/2) (1/2) 100 = ⟨100, 99, true⟩ ∧
    ¬ (((clampAxis (199/2) (1/2) 100).low : ℚ) ≤ 199/2) ∧
    ¬ ((clampAxis (199/2) (1/2) 100).low ≤ (clampAxis (199/2) (1/2) 100).high) := by
  refine ⟨by norm_num, by norm_num, by norm_num, ?_, ?_, ?_⟩ <;>
    norm_num [clampAxis, clampHalf2, clampHalf1, pytrunc, Int.ceil_neg, Int.floor_neg,
      ClampResult.mk.injEq]

/-- C1 (amended): for every center pix with 0 ≤ pix ≤ axis_length - 1 and every
half-extent ≥ 0, the rectangle-mode clamp bounds satisfy
0 ≤ low ≤ pix and ⌊pix⌋ ≤ high < axis_length (truncation can pull `high`
just below a fractional center, so `center ≤ high` holds only up to the
integer part); when no reduction is needed on the axis (int(pix-half) ≥ 0 and
int(pix+half) < axis_length) the bounds are exactly int(pix-half) and
int(pix+half) with wasClamped = false; and one single (possibly reduced)
half-extent s produces both bounds int(pix-s) and int(pix+s). -/
theorem C1_theorem (npix : ℕ) (pix half : ℚ)
    (hpix0 : 0 ≤ pix) (hpix1 : pix ≤ (npix : ℚ) - 1) (hhalf : 0 ≤ half) :
    (0 ≤ (clampAxis pix half npix).low ∧
     ((clampAxis pix half npix).low : ℚ) ≤ pix ∧
     ⌊pix⌋ ≤ (clampAxis pix half npix).high ∧
     (clampAxis pix half npix).high < (npix : ℤ)) ∧
    (0 ≤ pytrunc (pix - half) → pytrunc (pix + half) < (npix : ℤ) →
      (clampAxis pix half npix).wasClamped = false ∧
      (clampAxis pix half npix).low = pytrunc (pix - half) ∧
      (clampAxis pix half npix).high = pytrunc (pix + half)) ∧
    (∃ s : ℚ, (clampAxis pix half npix).low = pytrunc (pix - s) ∧
      (clampAxis pix half npix).high = pytrunc (pix + s)) := by
  have hn : (1 : ℚ) ≤ (npix : ℚ) := by linarith
  have hnn : (1 : ℤ) ≤ (npix : ℤ) := by exact_mod_cast hn
  have hh1 : 0 ≤ clampHalf1 pix half := by
    unfold clampHalf1
    split_ifs
    exacts [hpix0, hhalf]
  refine ⟨?_, ?_, ⟨clampHalf2 pix half npix, rfl, rfl⟩⟩
  · simp only [clampAxis]
    rcases le_or_lt ((npix : ℤ)) (pytrunc (pix + clampHalf1 pix half)) with hc2 | hc2
    · have hq : (npix : ℚ) ≤ pix + clampHalf1 pix half := by
        exact_mod_cast le_of_le_pytrunc hnn hc2
      have hlt : clampHalf1 pix half < pix + 2 := by
        unfold clampHalf1
        split_ifs with hc1
        · linarith
        · have h := pytrunc_nonneg_iff.1 (not_lt.1 hc1)
          linarith
      have e : pix + ((npix : ℚ) - pix - 1) = (((npix : ℤ) - 1 : ℤ) : ℚ) := by
        push_cast
        ring
      simp only [clampHalf2, if_pos hc2]
      refine ⟨?_, ?_, ?_, ?_⟩
      · rw [pytrunc_nonneg_iff]
        linarith
      · exact pytrunc_le_of_le (by linarith) hpix0
      · rw [e, pytrunc_intCast]
        calc ⌊pix⌋ ≤ ⌊(((npix : ℤ) - 1 : ℤ) : ℚ)⌋ :=
              Int.floor_mono (by push_cast; linarith)
          _ = (npix : ℤ) - 1 := Int.floor_intCast _
      · rw [e, pytrunc_intCast]
        omega
    · simp only [clampHalf2, if_neg (not_le.2 hc2)]
      refine ⟨?_, ?_, ?_, ?_⟩
      · unfold clampHalf1
        split_ifs with hc1
        · rw [sub_self]
          norm_num [pytrunc]
        · exact not_lt.1 hc1
      · exact pytrunc_le_of_le (by linarith) hpix0
      · rw [pytrunc_of_nonneg (by linarith)]
        exact Int.floor_mono (by linarith)
      · exact hc2
  · intro hb1 hb2
    have hc1 : ¬ (pytrunc (pix - half) < 0) := not_lt.2 hb1
    have e1 : clampHalf1 pix half = half := if_neg hc1
    have hc2 : ¬ ((npix : ℤ) ≤ pytrunc (pix + clampHalf1 pix half)) := by
      rw [e1]
      exact not_le.2 hb2
    have e2 : clampHalf2 pix half npix = half := by
      rw [clampHalf2, if_neg hc2, e1]
    refine ⟨?_, ?_, ?_⟩
    · simp only [clampAxis]
      rw [decide_eq_false (not_or.2 ⟨hc1, not_le.2 hb2⟩)]
    · simp only [clampAxis, e2]
    · simp only [clampAxis, e2]

/-- Witness for C1 (amended) at the spec's own example: center pixel 50,
half-extent 31, axis length 100 (bounds [19, 81), unclamped). -/
theorem C1_witness :
    (0 ≤ (clampAxis 50 31 100).low ∧
     ((clampAxis 50 31 100).low : ℚ) ≤ 50 ∧
     ⌊(50:ℚ)⌋ ≤ (clampAxis 50 31 100).high ∧
     (clampAxis 50 31 100).high < (100 : ℤ)) ∧
    ((clampAxis 50 31 100).wasClamped = false ∧
     (clampAxis 50 31 100).low = pytrunc ((50:ℚ) - 31) ∧
     (clampAxis 50 31 100).high = pytrunc ((50:ℚ) + 31)) ∧
    (∃ s : ℚ, (clampAxis 50 31 100).low = pytrunc ((50:ℚ) - s) ∧
      (clampAxis 50 31 100).high = pytrunc ((50:ℚ) + s)) :=
  ⟨(C1_theorem 100 50 31 (by norm_num) (by norm_num) (by norm_num)).1,
   (C1_theorem 100 50 31 (by norm_num) (by norm_num) (by norm_num)).2.1
     (by norm_num [pytrunc]) (by norm_num [pytrunc]),
   (C1_theorem 100 50 31 (by norm_num) (by norm_num) (by norm_num)).2.2⟩

/-- C4 (code-bug evidence): get_galaxy_range does not clamp.  For a cube with
3 axes the slicing branch references an undefined name and fails (modelled
`none`); and for center pixel (5,5) with radius 0.3 deg at scale 0.01 deg/pix
(half-extent 31) the computed low bound is -26 < 0, which numpy interprets as a
wrap-around index — whereas the rectangle clamp of the cutout engine at the
same input would return bounds [0, 10) with wasClamped = true. -/
theorem C4_theorem :
    rsize (3/10) (1/100) = 31 ∧
    get_galaxy_range_slice 3 50 50 31 = none ∧
    get_galaxy_range_bounds 5 5 31 = ((-26, 36), (-26, 36)) ∧
    (get_galaxy_range_bounds 5 5 31).1.1 < 0 ∧
    clampAxis 5 31 100 = ⟨0, 10, true⟩ := by
  refine ⟨?_, rfl, ?_, ?_, ?_⟩ <;>
    norm_num [rsize, get_galaxy_range_bounds, clampAxis, clampHalf2, clampHalf1,
      pytrunc, Int.ceil_neg, Int.floor_neg, ClampResult.mk.injEq, Prod.ext_iff]

/-- C7: with pixel scale 0.01 deg/pix and requested radius 0.3 deg, the integer
pixel half-extent is floor(0.3/0.01) + 1 = 31, and at center pixel (50,50) on a
100×100 spatial grid the slice bounds are [19, 81) on both spatial axes,
entirely within [0, 100), with no reduction performed (wasClamped = false). -/
theorem C7_theorem :
    rsize (3/10) (1/100) = pytrunc ((3/10 : ℚ) / (1/100)) + 1 ∧
    rsize (3/10) (1/100) = 31 ∧
    get_galaxy_range_bounds 50 50 31 = ((19, 81), (19, 81)) ∧
    clampAxis 50 31 100 = ⟨19, 81, false⟩ ∧
    (0 : ℤ) ≤ 19 ∧ (81 : ℤ) ≤ 100 := by
  refine ⟨rfl, ?_, ?_, ?_, by norm_num, by norm_num⟩ <;>
    norm_num [rsize, get_galaxy_range_bounds, clampAxis, clampHalf2, clampHalf1,
      pytrunc, Int.ceil_neg, Int.floor_neg, ClampResult.mk.injEq, Prod.ext_iff]

/-- C5 counterexample: for a 2-axis cube of shape (3, 5) the no_trim branch
returns the full spatial slice of shape (3, 5), but slices the coordinate
system with bounds ((0, 4), (0, 2)) — not the pixel array's own index bounds
((0, 3), (0, 5)) — so pixel array and coordinate view are not index-aligned. -/
theorem C5_counterexample :
    ImageTrim_no_trim [3, 5] = some ⟨(3, 5), ((0, 4), (0, 2))⟩ ∧
    (((0, 4), (0, 2)) : (ℕ × ℕ) × (ℕ × ℕ)) ≠ ((0, 3), (0, 5)) := by
  constructor <;> decide

/-- C5 (amended): for every cube with 2, 3 or 4 axes and non-degenerate
spatial extents ny, nx ≥ 1, the no_trim pixel slice has the full spatial shape
(ny, nx) = (shape[-2], shape[-1]), but the coordinate-system object is sliced
with the ranges (0, nx-1) and (0, ny-1) in slot order, which is never equal to
the pixel array's own slice bounds ((0, ny), (0, nx)): the coordinate view is
off by one and has the two spatial extents swapped. -/
theorem C5_theorem (lead : List ℕ) (ny nx : ℕ) (hl : lead.length ≤ 2)
    (hy : 1 ≤ ny) (hx : 1 ≤ nx) :
    ImageTrim_no_trim (lead ++ [ny, nx]) =
      some ⟨(ny, nx), ((0, nx - 1), (0, ny - 1))⟩ ∧
    (((0, nx - 1), (0, ny - 1)) : (ℕ × ℕ) × (ℕ × ℕ)) ≠ ((0, ny), (0, nx)) := by
  constructor
  · rcases lead with _ | ⟨a, _ | ⟨b, _ | ⟨c, t⟩⟩⟩
    · simp [ImageTrim_no_trim]
    · simp [ImageTrim_no_trim]
    · simp [ImageTrim_no_trim]
    · exfalso
      simp at hl
  · intro h
    simp only [Prod.mk.injEq] at h
    omega

/-- Witness for C5 (amended) at a 3-axis cube of shape (1, 4, 7). -/
theorem C5_witness :
    ImageTrim_no_trim [1, 4, 7] = some ⟨(4, 7), ((0, 6), (0, 3))⟩ ∧
    (((0, 6), (0, 3)) : (ℕ × ℕ) × (ℕ × ℕ)) ≠ ((0, 4), (0, 7)) :=
  C5_theorem [1] 4 7 (by norm_num) (by norm_num) (by norm_num)

/-- C6 counterexample: with min_p = 0, max_p = 1, steep_p = 4/5 > flat_p = 1/5
(both inside [min_p, max_p]) the range check of create_cmap_specindex passes
and a colormap is produced, although the claim requires failure whenever
steep_p > flat_p. -/
theorem C6_counterexample :
    (4/5 : ℚ) > 1/5 ∧ (create_cmap_specindex 0 1 (4/5) (1/5)).isSome = true := by
  constructor
  · norm_num
  · norm_num [create_cmap_specindex]

/-- C6 (amended): create_cmap_specindex fails (returns no colormap) exactly
when steep_p or flat_p lies outside [min_p, max_p]; the ordering
steep_p ≤ flat_p is NOT checked, so whenever both lie inside [min_p, max_p]
the check passes — even with steep_p > flat_p. -/
theorem C6_theorem (min_p max_p steep_p flat_p : ℚ) :
    create_cmap_specindex min_p max_p steep_p flat_p = none ↔
      (steep_p < min_p ∨ flat_p < min_p ∨ max_p < steep_p ∨ max_p < flat_p) := by
  unfold create_cmap_specindex
  split_ifs with h
  · simpa using h
  · simpa using h

/-- C8 counterexample: velocity family with min_p = 0, max_p = 1, div = 1/2 and
width = 1 (so d0 - width/2 = 0 < Lpoint_1 = 0.33 and d0 + width/2 = 1 > 1 -
Lpoint_1): the builder hands the non-monotonic position sequence
[0, 0.33, 0, 0.5, 1, 0.67, 1] to the assembler instead of failing. -/
theorem C8_counterexample :
    create_cmap_velocity 0 1 (1/2) 1 (33/100) =
      VelBuild.built [0, 33/100, 0, 1/2, 1, 67/100, 1] ∧
    ¬ List.Chain' (· ≤ ·) [(0:ℚ), 33/100, 0, 1/2, 1, 67/100, 1] := by
  constructor
  · norm_num [create_cmap_velocity]
  · norm_num

/-- C8 (amended): the velocity-family position sequence starts at 0 and ends
at 1, and it is non-decreasing whenever the parameters keep the derived
anchors ordered (0 ≤ Lpoint_1, 0 ≤ width, Lpoint_1 ≤ d0 - width/2 and
d0 + width/2 ≤ 1 - Lpoint_1); monotonicity is not validated by the builder, so
outside that regime the non-monotonic sequence is handed to the assembler
without an InvalidControlPoints failure (see the counterexample). -/
theorem C8_theorem (min_p max_p div width Lpoint_1 : ℚ)
    (h0 : 0 ≤ Lpoint_1) (hw : 0 ≤ width)
    (h1 : Lpoint_1 ≤ (div - min_p) / (max_p - min_p) - width / 2)
    (h2 : (div - min_p) / (max_p - min_p) + width / 2 ≤ 1 - Lpoint_1) :
    ∃ ps : List ℚ, create_cmap_velocity min_p max_p div width Lpoint_1 =
        VelBuild.built ps ∧
      List.Chain' (· ≤ ·) ps ∧ ps.headI = 0 ∧ ps.getLast? = some 1 := by
  set d0 := (div - min_p) / (max_p - min_p) with hd0
  have hg : ¬ (d0 < 0 ∨ 1 < d0) := by
    push_neg
    constructor <;> linarith
  refine ⟨[0, Lpoint_1, d0 - width / 2, d0, d0 + width / 2, 1 - Lpoint_1, 1],
    ?_, ?_, rfl, rfl⟩
  · simp only [create_cmap_velocity]
    rw [← hd0, if_neg hg]
  · simp only [List.chain'_cons, List.chain'_singleton, and_true]
    refine ⟨?_, ?_, ?_, ?_, ?_, ?_⟩ <;> linarith

/-- Witness for C8 (amended): div = 1/2, width = 1/10, Lpoint_1 = 0.33 on the
normalized range [0, 1]. -/
theorem C8_witness :
    ∃ ps : List ℚ, create_cmap_velocity 0 1 (1/2) (1/10) (33/100) =
        VelBuild.built ps ∧
      List.Chain' (· ≤ ·) ps ∧ ps.headI = 0 ∧ ps.getLast? = some 1 :=
  C8_theorem 0 1 (1/2) (1/10) (33/100) (by norm_num) (by norm_num)
    (by norm_num) (by norm_num)

/-- C9 counterexample: supplying H_min = 10 and H_mid = 20 but no H_max —
exactly one member of the hue min/max pair, an incomplete combination of
H_min/H_mid/H_max — passes the checks of create_cmap_specindex_error and
produces a colormap (the missing H_max is silently set to H_mid). -/
theorem C9_counterexample :
    create_cmap_specindex_error (1/2) 72 50 none none 85 70 (some 10) (some 20) none =
      some ([0, 1/2, 1], [72, 50, 72], [0, 85/2, 85], [10, 20, 20]) := by
  norm_num [create_cmap_specindex_error, specindex_error_H]

/-- C9 (amended): with a valid c_mid ∈ [0,1], create_cmap_specindex_error
fails (produces no colormap) precisely when exactly one of L_min/L_max is
supplied, or when at least one of H_min/H_max is supplied while H_mid together
with one of H_min/H_max is missing; every other combination passes, with all
missing L/C/H control values derived to concrete numbers (never emitted
undefined). -/
theorem C9_theorem (c_mid L_ends L_mid : ℚ) (L_min L_max : Option ℚ) (C_max H_0 : ℚ)
    (H_min H_mid H_max : Option ℚ) (hc0 : 0 ≤ c_mid) (hc1 : c_mid ≤ 1) :
    create_cmap_specindex_error c_mid L_ends L_mid L_min L_max C_max H_0 H_min H_mid H_max
        = none ↔
      (L_min.isSome ≠ L_max.isSome ∨
        (¬ (H_min = none ∧ H_max = none) ∧
          ((H_min = none ∧ H_mid = none) ∨ (H_mid = none ∧ H_max = none)))) := by
  have hif : ¬ (c_mid < 0 ∨ 1 < c_mid) := by
    push_neg
    exact ⟨hc0, hc1⟩
  rcases L_min with _ | a <;> rcases L_max with _ | b <;>
    rcases H_min with _ | x <;> rcases H_mid with _ | m <;> rcases H_max with _ | y <;>
      simp [create_cmap_specindex_error, specindex_error_H, hif]

/-- Witness for C9 (amended): supplying L_min = 60 without L_max fails and
produces no colormap. -/
theorem C9_witness :
    create_cmap_specindex_error (1/2) 72 50 (some 60) none 85 70 none none none = none :=
  (C9_theorem (1/2) 72 50 (some 60) none 85 70 none none none
    (by norm_num) (by norm_num)).mpr (by simp)

/-- C10: in both velmap velocity builders, a normalized division point
d0 = (div - min_p)/(max_p - min_p) outside [0, 1] terminates the process via
exit(-1) (modelled as the `exited (-1)` result) instead of returning an error
value, and for every in-range division point this exit path is not taken and
the control points are built. -/
theorem C10_theorem (min_p max_p div width Lpoint_1 : ℚ) :
    (((div - min_p) / (max_p - min_p) < 0 ∨ 1 < (div - min_p) / (max_p - min_p)) →
      create_cmap_velocity min_p max_p div width Lpoint_1 = VelBuild.exited (-1) ∧
      create_cmap_chromaVelocity min_p max_p div width Lpoint_1 = VelBuild.exited (-1)) ∧
    (0 ≤ (div - min_p) / (max_p - min_p) → (div - min_p) / (max_p - min_p) ≤ 1 →
      (∃ ps, create_cmap_velocity min_p max_p div width Lpoint_1 = VelBuild.built ps) ∧
      (∃ ps, create_cmap_chromaVelocity min_p max_p div width Lpoint_1 = VelBuild.built ps)) := by
  constructor
  · intro h
    constructor
    · simp only [create_cmap_velocity]
      rw [if_pos h]
    · simp only [create_cmap_chromaVelocity]
      rw [if_pos h]
  · intro h1 h2
    have hg : ¬ ((div - min_p) / (max_p - min_p) < 0 ∨
        1 < (div - min_p) / (max_p - min_p)) := by
      push_neg
      exact ⟨h1, h2⟩
    constructor
    · refine ⟨[0, Lpoint_1, (div - min_p) / (max_p - min_p) - width / 2,
        (div - min_p) / (max_p - min_p), (div - min_p) / (max_p - min_p) + width / 2,
        1 - Lpoint_1, 1], ?_⟩
      simp only [create_cmap_velocity]
      rw [if_neg hg]
    · refine ⟨[0, Lpoint_1, (div - min_p) / (max_p - min_p) - width / 2,
        (div - min_p) / (max_p - min_p), (div - min_p) / (max_p - min_p) + width / 2,
        1 - Lpoint_1, 1], ?_⟩
      simp only [create_cmap_chromaVelocity]
      rw [if_neg hg]

/-- Witness for C10: with range [0, 1], division point 2 is out of range and
both builders exit with code -1; division point 1/2 is in range and the
velocity builder hands control points to the assembler. -/
theorem C10_witness :
    create_cmap_velocity 0 1 2 0 (33/100) = VelBuild.exited (-1) ∧
    (∃ ps, create_cmap_velocity 0 1 (1/2) 0 (33/100) = VelBuild.built ps) :=
  ⟨((C10_theorem 0 1 2 0 (33/100)).1 (by norm_num)).1,
   ((C10_theorem 0 1 (1/2) 0 (33/100)).2 (by norm_num) (by norm_num)).1⟩
